import Mathlib

/-!
# Verification of the ouster_ros point-cloud node core

A shallow embedding of `src/ouster_ros/src/os_cloud_node.cpp` and of the
library components it drives (scan batcher, scan-to-cloud converter, IMU
decoder, message/transform conversion), together with proofs of the
behavioural properties claimed for it.

The node code itself (the lidar/imu handlers, `check_valid_timestamp` and
`main`) is embedded directly from the source.  The library components it
calls (`ouster::ScanBatcher`, `scan_to_cloud`, `cloud_to_cloud_msg`,
`packet_to_imu_msg`, `transform_to_tf_msg`) are not part of the sources
under verification; they are modelled from the specification, and each such
definition is marked `Modelled from the spec`.

Conventions: machine timestamps are nanosecond counts (`Nat`); host time is
also a nanosecond count; byte buffers are `List Nat`; packets on the lidar
channel are modelled as the sequence of decoded columns they carry (the
packet-format descriptor's pure decode step is absorbed into this
representation).
-/

namespace OusterRos

/-- One decoded lidar column as delivered inside a packet: its measurement
id (also its column index within the frame), its capture timestamp in
nanoseconds, and its per-pixel channel values (range, reflectivity, signal,
near infrared), each a list of H values. -/
structure ColumnData where
  m_id : Nat
  timestamp : Nat
  ranges : List Nat
  reflects : List Nat
  signals : List Nat
  nirs : List Nat
deriving Repr, DecidableEq

/-- One column slot of the scan buffer: the recorded timestamp (0 when the
column never received a packet) and the per-pixel channel values. -/
structure ColBuf where
  timestamp : Nat
  ranges : List Nat
  reflects : List Nat
  signals : List Nat
  nirs : List Nat
deriving Repr, DecidableEq

/-- An empty (never written) column slot: zero timestamp, no data. -/
def ColBuf.empty : ColBuf := ⟨0, [], [], [], []⟩

/-- The scan buffer: W column slots.  A column's header timestamp is the
`timestamp` field of its slot (mirrors `ls.headers` in the C++ node). -/
structure LidarScan where
  cols : List ColBuf
deriving Repr, DecidableEq

/-- A fresh scan buffer of width `w`: every column slot empty. -/
def freshScan (w : Nat) : LidarScan := ⟨List.replicate w ColBuf.empty⟩

/-- A scan buffer of the same width as `ls` with every column slot reset. -/
def freshLike (ls : LidarScan) : LidarScan := ⟨ls.cols.map (fun _ => ColBuf.empty)⟩

/-- The column slot a decoded column writes. -/
def ColumnData.toBuf (c : ColumnData) : ColBuf :=
  ⟨c.timestamp, c.ranges, c.reflects, c.signals, c.nirs⟩

/-- Write a decoded column into the scan buffer at its column index
(`List.set` is a no-op out of range, matching the reject-out-of-range
behaviour). -/
def writeColumn (ls : LidarScan) (c : ColumnData) : LidarScan :=
  ⟨ls.cols.set c.m_id c.toBuf⟩

/-- Modelled from the spec: the state of `ouster::ScanBatcher` (library
code, not under `src/`): the frame width `w`, the measurement id of the
last column written (`none` before the first column ever), and the columns
of the next revolution received on a wrapping call and not yet written.
Per the spec the batcher detects completion of a revolution "by observing
the measurement-id sequence wrap (i.e., a new column's id is less than or
equal to the previous one)"; the return contract requires that on the
`true`-returning call "the buffer now holds one completed revolution
ready for conversion" and only "the next call mutates it further", so the
wrapping column and the remainder of its packet are held pending and
begin the fresh buffer on the next call. -/
structure ScanBatcher where
  w : Nat
  lastId : Option Nat
  pending : List ColumnData
deriving Repr, DecidableEq

/-- Modelled from the spec: the batcher's column loop over one packet.  A
column whose index falls outside `[0, w)` is rejected/ignored.  The first
column ever starts the first buffer without signalling completion; a
column whose id is less than or equal to the previously seen id finalizes
the current buffer as the completed revolution: the loop stops and returns
`true` with the buffer untouched and the wrapping column together with the
packet's remaining columns as leftover (they belong to the next
revolution); any other column is written at its index.  Returns (wrap
signalled, last seen id, buffer, leftover columns). -/
def batchCols (w : Nat) : Option Nat → LidarScan → List ColumnData →
    Bool × Option Nat × LidarScan × List ColumnData
  | lo, ls, [] => (false, lo, ls, [])
  | lo, ls, c :: cs =>
    if c.m_id < w then
      match lo with
      | none => batchCols w (some c.m_id) (writeColumn ls c) cs
      | some l =>
        if c.m_id ≤ l then (true, some l, ls, c :: cs)
        else batchCols w (some c.m_id) (writeColumn ls c) cs
    else batchCols w lo ls cs

/-- Modelled from the spec: writing the pending columns of the new
revolution into the fresh buffer ("begins a fresh buffer, writing the new
column into it"); out-of-range columns are ignored.  Returns the last seen
id and the buffer. -/
def writePending (w : Nat) : Option Nat → LidarScan → List ColumnData →
    Option Nat × LidarScan
  | lo, ls, [] => (lo, ls)
  | lo, ls, c :: cs =>
    if c.m_id < w then writePending w (some c.m_id) (writeColumn ls c) cs
    else writePending w lo ls cs

/-- Modelled from the spec: one call of the batch operation on a packet
(`batch(pm.buf.data(), ls)` in the node).  If the previous call signalled
a completed revolution, its pending columns first begin the fresh buffer
(this is the mutation the return contract defers to "the next call");
then the packet's columns are processed in order.  The call returns `true`
exactly when it completed a revolution, and in that case the returned
buffer still holds the completed revolution (spec 4.2 return contract
and the testable scenario of spec 8). -/
def batch (b : ScanBatcher) (ls : LidarScan) (p : List ColumnData) :
    Bool × ScanBatcher × LidarScan :=
  let start :=
    match b.pending with
    | [] => (b.lastId, ls)
    | pc :: pcs => writePending b.w none (freshLike ls) (pc :: pcs)
  let r := batchCols b.w start.1 start.2 p
  (r.1, ⟨b.w, r.2.1, r.2.2.2⟩, r.2.2.1)

/-- Run the batch operation over a sequence of packets, collecting each
call's boolean return. -/
def runBatches (b : ScanBatcher) (ls : LidarScan) :
    List (List ColumnData) → List Bool × ScanBatcher × LidarScan
  | [] => ([], b, ls)
  | p :: ps =>
    let r := batch b ls p
    let rest := runBatches r.2.1 r.2.2 ps
    (r.1 :: rest.1, rest.2)

/-- Modelled from the spec: the coordinate lookup table (`make_xyz_lut`,
library code, not under `src/`): per-pixel direction vectors and per-pixel
offsets for an H x W frame, with integer components (the geometric scaling
is irrelevant to the claims). -/
structure XYZLut where
  w : Nat
  h : Nat
  direction : List (List (Int × Int × Int))
  offset : List (List (Int × Int × Int))
deriving Repr, DecidableEq

/-- One point of the produced cloud: 3D position, per-point timestamp,
reflectivity, intensity and ring (pixel row) index. -/
structure CloudPoint where
  x : Int
  y : Int
  z : Int
  t : Nat
  reflectivity : Nat
  intensity : Nat
  ring : Nat
deriving Repr, DecidableEq

/-- The reused point-cloud buffer: a dense list of W*H points. -/
structure CloudBuf where
  pts : List CloudPoint
deriving Repr, DecidableEq

/-- Modelled from the spec: the point computed for pixel (column `c`, row
`r`): position `direction * range + offset` when the range is nonzero, the
zero-vector sentinel when the range is zero (no return); the point carries
the column's timestamp, its reflectivity and signal-intensity channel
values, and the ring index `r`. -/
def mkPoint (lut : XYZLut) (ls : LidarScan) (c r : Nat) : CloudPoint :=
  let col := (ls.cols.getD c ColBuf.empty)
  let rng := col.ranges.getD r 0
  let d := ((lut.direction.getD r []).getD c (0, 0, 0))
  let o := ((lut.offset.getD r []).getD c (0, 0, 0))
  let pos : Int × Int × Int :=
    if 0 < rng then (d.1 * rng + o.1, d.2.1 * rng + o.2.1, d.2.2 * rng + o.2.2)
    else (0, 0, 0)
  ⟨pos.1, pos.2.1, pos.2.2, col.timestamp,
   col.reflects.getD r 0, col.signals.getD r 0, r⟩

/-- Modelled from the spec: `scan_to_cloud` (library code, not under
`src/`): overwrite every one of the W*H cells of the output buffer with the
point computed from the lookup table and the completed scan.  `scan_ts` is
the representative scan timestamp passed by the caller; every cell is
written unconditionally, so the previous contents of `cloud` do not
influence the result. -/
def scan_to_cloud (lut : XYZLut) (scan_ts : Nat) (ls : LidarScan) (cloud : CloudBuf) :
    CloudBuf :=
  let _ := scan_ts
  let _ := cloud
  ⟨(List.range lut.w).flatMap (fun c => (List.range lut.h).map (fun r => mkPoint lut ls c r))⟩

/-- The published point-cloud message: a stamp (nanoseconds), a frame id
and the cloud data. -/
structure CloudMsg where
  stamp : Nat
  frame : String
  data : CloudBuf
deriving Repr, DecidableEq

/-- Modelled from the spec: `cloud_to_cloud_msg` (ouster_ros library code,
not under `src/`): wrap the cloud into a message stamped with the given
timestamp and frame id. -/
def cloud_to_cloud_msg (cloud : CloudBuf) (ts : Nat) (frame : String) : CloudMsg :=
  ⟨ts, frame, cloud⟩

/-- `kMaxTimeOffset` of `check_valid_timestamp`, 5.0 seconds, in
nanoseconds. -/
def kMaxTimeOffset : Int := 5000000000

/-- Embedding of `check_valid_timestamp` (os_cloud_node.cpp): returns
whether the clock-skew error is logged, namely when the message time is
strictly below `now - kMaxTimeOffset`.  The C++ function only logs; it
returns nothing and modifies nothing, so its embedding is this pure
report flag. -/
def check_valid_timestamp (msg_time now : Nat) : Bool :=
  decide ((msg_time : Int) < (now : Int) - kMaxTimeOffset)

/-- The mutable state captured by the lidar handler closure: the batcher,
the scan buffer and the reused cloud buffer. -/
structure NodeState where
  batcher : ScanBatcher
  ls : LidarScan
  cloud : CloudBuf
deriving Repr, DecidableEq

/-- Embedding of the node's `lidar_handler` closure (os_cloud_node.cpp):
feed the packet to the batcher; when a revolution completed, look for the
first column header with a nonzero timestamp; if one exists, convert the
scan and publish a message stamped with that timestamp, running the
clock-skew check on the published stamp.  Returns the new captured state,
the published message (`none` when nothing is published) and whether the
clock-skew error was reported. -/
def lidar_handler (lut : XYZLut) (sensor_frame : String) (now : Nat)
    (st : NodeState) (pm : List ColumnData) : NodeState × Option CloudMsg × Bool :=
  let r := batch st.batcher st.ls pm
  if r.1 then
    match r.2.2.cols.find? (fun c => c.timestamp != 0) with
    | some hcol =>
      let cloud := scan_to_cloud lut hcol.timestamp r.2.2 st.cloud
      let msg := cloud_to_cloud_msg cloud hcol.timestamp sensor_frame
      (⟨r.2.1, r.2.2, cloud⟩, some msg, check_valid_timestamp msg.stamp now)
    | none => (⟨r.2.1, r.2.2, st.cloud⟩, none, false)
  else (⟨r.2.1, r.2.2, st.cloud⟩, none, false)

/-- The packet-format descriptor as far as the IMU path needs it: the
expected IMU packet byte size. -/
structure PacketFormat where
  imu_packet_size : Nat
deriving Repr, DecidableEq

/-- Little-endian read of `n` bytes of `buf` starting at `off`. -/
def readLE (buf : List Nat) (off : Nat) : Nat → Nat
  | 0 => 0
  | n + 1 => buf.getD off 0 + 256 * readLE buf (off + 1) n

/-- One decoded IMU reading: timestamp and the raw decoded acceleration
and angular-velocity words (orientation is a placeholder in the spec). -/
structure ImuMsg where
  stamp : Nat
  frame : String
  acc : Nat × Nat × Nat
  gyro : Nat × Nat × Nat
deriving Repr, DecidableEq

/-- Modelled from the spec: `packet_to_imu_msg` (ouster_ros library code,
not under `src/`): a pure decode of one IMU packet at the descriptor's
fixed offsets; a packet whose byte length does not match the expected IMU
packet size is rejected (`none`), with "no failure modes beyond malformed
packet length". -/
def packet_to_imu_msg (pf : PacketFormat) (buf : List Nat) (frame : String) :
    Option ImuMsg :=
  if buf.length = pf.imu_packet_size then
    some ⟨readLE buf 0 8, frame,
          (readLE buf 24 4, readLE buf 28 4, readLE buf 32 4),
          (readLE buf 36 4, readLE buf 40 4, readLE buf 44 4)⟩
  else none

/-- Embedding of the node's `imu_handler` closure (os_cloud_node.cpp): the
reading published for one IMU packet (`none` when the packet is rejected).
The handler is stateless: one packet in, at most one reading out. -/
def imu_handler (pf : PacketFormat) (frame : String) (buf : List Nat) : Option ImuMsg :=
  packet_to_imu_msg pf buf frame

/-- The readings published for a stream of IMU packets, in order. -/
def imu_stream (pf : PacketFormat) (frame : String) (ps : List (List Nat)) :
    List (Option ImuMsg) :=
  ps.map (imu_handler pf frame)

/-- A rigid-body transform from the metadata, kept as its raw matrix
entries; the claims only need that it is carried through unmodified. -/
structure Transform where
  entries : List (List Int)
deriving Repr, DecidableEq

/-- The one-time sensor metadata the node fetches at startup, as far as
the claims need it. -/
structure SensorInfo where
  pixels_per_column : Nat
  columns_per_frame : Nat
  imu_to_sensor_transform : Transform
  lidar_to_sensor_transform : Transform
deriving Repr, DecidableEq

/-- A frame-transform message as handed to the static transform
broadcaster. -/
structure TfMsg where
  transform : Transform
  parent : String
  child : String
deriving Repr, DecidableEq

/-- Modelled from the spec: `transform_to_tf_msg` (ouster_ros library
code, not under `src/`): wrap a metadata transform, unmodified, with its
parent and child frame ids. -/
def transform_to_tf_msg (t : Transform) (parent child : String) : TfMsg :=
  ⟨t, parent, child⟩

/-- The externally observable startup actions of `main`, in program
order. -/
inductive Event where
  | reportError (msg : String)
  | advertise (topic : String)
  | subscribe (topic : String)
  | sendTransform (m : TfMsg)
  | spin
deriving Repr, DecidableEq

/-- Whether an event is a transform broadcast. -/
def Event.isSend : Event → Bool
  | .sendTransform _ => true
  | _ => false

/-- Whether an event installs a packet subscription (begins packet
processing). -/
def Event.isSub : Event → Bool
  | .subscribe _ => true
  | _ => false

/-- Exit status `EXIT_FAILURE`. -/
def EXIT_FAILURE : Nat := 1

/-- Exit status `EXIT_SUCCESS`. -/
def EXIT_SUCCESS : Nat := 0

/-- The tf-prefix normalisation of `main`: a nonempty prefix not ending in
a slash gets one appended. -/
def normalizePre (tfp : String) : String :=
  if tfp ≠ "" ∧ ¬ tfp.endsWith "/" then tfp ++ "/" else tfp

/-- Embedding of `main` (os_cloud_node.cpp) as the trace of its startup
actions and its exit status, as a function of the config-service call's
outcome (`none`: the call failed; `some info`: the metadata obtained).  On
failure it reports the error and returns `EXIT_FAILURE` before
advertising, subscribing or broadcasting anything; on success it
advertises the two topics, installs the two packet subscriptions,
broadcasts the two static transforms from the metadata and spins,
returning `EXIT_SUCCESS`. -/
def os_cloud_node_main (tfp : String) (cfg : Option SensorInfo) : List Event × Nat :=
  let p := normalizePre tfp
  let sensor_frame := p ++ "os_sensor"
  let imu_frame := p ++ "os_imu"
  let lidar_frame := p ++ "os_lidar"
  match cfg with
  | none => ([.reportError "Calling config service failed"], EXIT_FAILURE)
  | some info =>
    ([.advertise "points", .advertise "imu",
      .subscribe "lidar_packets", .subscribe "imu_packets",
      .sendTransform (transform_to_tf_msg info.imu_to_sensor_transform sensor_frame imu_frame),
      .sendTransform (transform_to_tf_msg info.lidar_to_sensor_transform sensor_frame lidar_frame),
      .spin], EXIT_SUCCESS)

/-- Concrete lookup table (0 x 0 frame) for closed evaluations. -/
def lutEx : XYZLut := ⟨0, 0, [], []⟩

/-- Concrete node state: a width-1 batcher that has seen column 0, a scan
whose single column holds timestamp 5, and an empty cloud buffer. -/
def stEx : NodeState := ⟨⟨1, some 0, []⟩, ⟨[⟨5, [], [], [], []⟩]⟩, ⟨[]⟩⟩

/-- Concrete node state: a width-1 batcher that has seen column 0 and a
scan whose single column was never populated (timestamp zero). -/
def stZero : NodeState := ⟨⟨1, some 0, []⟩, ⟨[ColBuf.empty]⟩, ⟨[]⟩⟩

/-- Concrete wrapping column with a zero timestamp. -/
def colZ : ColumnData := ⟨0, 0, [], [], [], []⟩

/-- Concrete wrapping column with timestamp 777. -/
def colT : ColumnData := ⟨0, 777, [], [], [], []⟩

/-- Concrete column 0 of a 4-column revolution. -/
def colA : ColumnData := ⟨0, 1, [], [], [], []⟩

/-- Concrete column 1 of a 4-column revolution. -/
def colB : ColumnData := ⟨1, 2, [], [], [], []⟩

/-- Concrete column 2 of a 4-column revolution. -/
def colC : ColumnData := ⟨2, 3, [], [], [], []⟩

/-- Concrete column 3 of a 4-column revolution. -/
def colD : ColumnData := ⟨3, 4, [], [], [], []⟩

/-- Concrete wrapping column starting the next revolution. -/
def colWrap : ColumnData := ⟨0, 9, [], [], [], []⟩

/-! ## Batcher lemmas -/

/-- The batcher's last-seen id is compatible with the upcoming column
stream: if a last id exists and the stream is nonempty, the stream's first
id is strictly larger. -/
def okStart (lo : Option Nat) (cs : List ColumnData) : Prop :=
  ∀ l ∈ lo, ∀ c ∈ cs.head?, l < c.m_id

/-- The batcher's last-seen id after consuming `cs` starting from `lo`. -/
def nextLast (lo : Option Nat) (cs : List ColumnData) : Option Nat :=
  match cs.getLast? with
  | some c => some c.m_id
  | none => lo

theorem nextLast_cons (lo : Option Nat) (c : ColumnData) (cs : List ColumnData) :
    nextLast lo (c :: cs) = nextLast (some c.m_id) cs := by
  cases cs with
  | nil => simp [nextLast]
  | cons d t =>
    rcases h : (d :: t).getLast? with _ | x
    · exact absurd h (by simp [List.getLast?_eq_none_iff])
    · simp [nextLast, List.getLast?_cons_cons, h]

theorem nextLast_append (lo : Option Nat) (p r : List ColumnData) :
    nextLast lo (p ++ r) = nextLast (nextLast lo p) r := by
  rcases h : r.getLast? with _ | x
  · have hr : r = [] := by simpa using h
    subst hr
    simp [nextLast]
  · simp [nextLast, List.getLast?_append, h]

theorem okStart_append_left (lo : Option Nat) (p r : List ColumnData)
    (h : okStart lo (p ++ r)) : okStart lo p := by
  intro l hl c hc
  cases p with
  | nil => simp at hc
  | cons d t => exact h l hl c hc

theorem okStart_next (lo : Option Nat) (p r : List ColumnData)
    (hok : okStart lo (p ++ r))
    (hb : ∀ x ∈ p.getLast?, ∀ y ∈ r.head?, x.m_id < y.m_id) :
    okStart (nextLast lo p) r := by
  intro l hl c hc
  rcases hgl : p.getLast? with _ | x
  · have hp : p = [] := by simpa using hgl
    subst hp
    have hl2 : l ∈ lo := by simpa [nextLast] using hl
    exact hok l hl2 c hc
  · have hlx : l = x.m_id := by
      have := hl
      simp [nextLast, hgl] at this
      omega
    subst hlx
    exact hb x (by rw [Option.mem_def, hgl]) c hc

/-- With no pending columns, one batch call is the column loop. -/
theorem batch_no_pending (w : Nat) (lo : Option Nat) (ls : LidarScan)
    (p : List ColumnData) :
    batch ⟨w, lo, []⟩ ls p =
      ((batchCols w lo ls p).1,
       ⟨w, (batchCols w lo ls p).2.1, (batchCols w lo ls p).2.2.2⟩,
       (batchCols w lo ls p).2.2.1) := rfl

/-- The column loop over in-range columns with strictly increasing ids,
starting from a compatible last id, signals no wrap, leaves the last-seen
id at the last column's id, and leaves no leftover columns. -/
theorem batchCols_inc_false (cs : List ColumnData) :
    ∀ (w : Nat) (lo : Option Nat) (ls : LidarScan),
    (∀ c ∈ cs, c.m_id < w) →
    List.Chain' (fun x y : ColumnData => x.m_id < y.m_id) cs →
    okStart lo cs →
    (batchCols w lo ls cs).1 = false ∧
    (batchCols w lo ls cs).2.1 = nextLast lo cs ∧
    (batchCols w lo ls cs).2.2.2 = [] := by
  induction cs with
  | nil => intro w lo ls _ _ _; exact ⟨rfl, rfl, rfl⟩
  | cons c cs ih =>
    intro w lo ls hw hchain hok
    have hcw : c.m_id < w := hw c (by simp)
    have hok2 : okStart (some c.m_id) cs := by
      intro l hl c2 hc2
      have hlc : l = c.m_id := by simpa using hl.symm
      subst hlc
      cases cs with
      | nil => simp at hc2
      | cons d t =>
        have hcd : c2 = d := by simpa using hc2.symm
        subst hcd
        exact (List.chain'_cons.mp hchain).1
    have hrest := ih w (some c.m_id) (writeColumn ls c)
      (fun c2 h2 => hw c2 (by simp [h2])) hchain.tail hok2
    cases lo with
    | none =>
      refine ⟨?_, ?_, ?_⟩ <;>
        simp [batchCols, hcw, hrest.1, hrest.2.1, hrest.2.2, nextLast_cons]
    | some l =>
      have hl : l < c.m_id := hok l rfl c rfl
      refine ⟨?_, ?_, ?_⟩ <;>
        simp [batchCols, hcw, Nat.not_le.mpr hl, hrest.1, hrest.2.1, hrest.2.2,
          nextLast_cons]

/-- Processing a packet of in-range columns with strictly increasing ids,
starting from a compatible pending-free batcher state, signals no
completion and leaves the last-seen id at the packet's last id with
nothing pending. -/
theorem batch_inc_false (p : List ColumnData) (w : Nat) (lo : Option Nat)
    (ls : LidarScan)
    (hw : ∀ c ∈ p, c.m_id < w)
    (hchain : List.Chain' (fun x y : ColumnData => x.m_id < y.m_id) p)
    (hok : okStart lo p) :
    (batch ⟨w, lo, []⟩ ls p).1 = false ∧
    (batch ⟨w, lo, []⟩ ls p).2.1 = ⟨w, nextLast lo p, []⟩ := by
  have h := batchCols_inc_false p w lo ls hw hchain hok
  rw [batch_no_pending]
  exact ⟨h.1, by rw [h.2.1, h.2.2]⟩

/-- Running the batch operation over a packet sequence whose concatenated
columns are in range and strictly increasing (from a compatible
pending-free state) returns `false` on every call. -/
theorem runBatches_inc_false (ps : List (List ColumnData)) :
    ∀ (w : Nat) (lo : Option Nat) (ls : LidarScan),
    (∀ c ∈ ps.flatten, c.m_id < w) →
    List.Chain' (fun x y : ColumnData => x.m_id < y.m_id) ps.flatten →
    okStart lo ps.flatten →
    (runBatches ⟨w, lo, []⟩ ls ps).1 = List.replicate ps.length false ∧
    (runBatches ⟨w, lo, []⟩ ls ps).2.1 = ⟨w, nextLast lo ps.flatten, []⟩ := by
  induction ps with
  | nil => intro w lo ls _ _ _; exact ⟨rfl, rfl⟩
  | cons p ps ih =>
    intro w lo ls hw hchain hok
    rw [List.flatten_cons] at hw hchain hok
    obtain ⟨hc1, hc2, hb⟩ := List.chain'_append.mp hchain
    have hwp : ∀ c ∈ p, c.m_id < w := fun c h => hw c (by simp [h])
    have hokp : okStart lo p := okStart_append_left lo p ps.flatten hok
    have hs := batch_inc_false p w lo ls hwp hc1 hokp
    rcases hbp : batch ⟨w, lo, []⟩ ls p with ⟨bb, b2, ls3⟩
    rw [hbp] at hs
    obtain ⟨h1, h2⟩ := hs
    simp only at h1 h2
    subst h1
    subst h2
    have hrest := ih w (nextLast lo p) ls3 (fun c h => hw c (by simp [h])) hc2
      (okStart_next lo p ps.flatten hok hb)
    refine ⟨?_, ?_⟩
    · simp [runBatches, hbp, hrest.1, List.replicate_succ]
    · simp [runBatches, hbp, hrest.2, nextLast_append]

theorem runBatches_append (ps qs : List (List ColumnData)) :
    ∀ (b : ScanBatcher) (ls : LidarScan),
    (runBatches b ls (ps ++ qs)).1 =
      (runBatches b ls ps).1 ++
        (runBatches (runBatches b ls ps).2.1 (runBatches b ls ps).2.2 qs).1 := by
  induction ps with
  | nil => intro b ls; simp [runBatches]
  | cons p ps ih => intro b ls; simp [runBatches, ih]

/-- A pending-free call whose first column wraps (id at most the last
seen id, in range) returns `true`. -/
theorem batch_wrap_true (w l : Nat) (ls : LidarScan) (qc : ColumnData)
    (qrest : List ColumnData) (hqw : qc.m_id < w) (hwrap : qc.m_id ≤ l) :
    (batch ⟨w, some l, []⟩ ls (qc :: qrest)).1 = true := by
  simp [batch_no_pending, batchCols, hqw, hwrap]

/-! ## Handler lemmas -/

/-- `find?` returns the element at the first index satisfying the
predicate. -/
theorem find?_first {α : Type} (p : α → Bool) (l : List α) (i : Nat) (hi : i < l.length)
    (hp : p (l.get ⟨i, hi⟩) = true)
    (hmin : ∀ j (hj : j < i), p (l.get ⟨j, Nat.lt_trans hj hi⟩) = false) :
    l.find? p = some (l.get ⟨i, hi⟩) := by
  induction l generalizing i with
  | nil => simp at hi
  | cons a t ih =>
    cases i with
    | zero =>
      have hpa : p a = true := hp
      simp [List.find?_cons, hpa]
    | succ k =>
      have h0 : p a = false := hmin 0 (Nat.succ_pos k)
      have hi2 : k < t.length := Nat.lt_of_succ_lt_succ hi
      have hk := ih k hi2 hp (fun j hj => hmin (j + 1) (Nat.succ_lt_succ hj))
      simp [List.find?_cons, h0, hk]

/-- The message the lidar handler publishes does not depend on the host
wall time: the clock-skew check never blocks or alters emission. -/
theorem lidar_handler_pub_indep (lut : XYZLut) (frame : String) (now now2 : Nat)
    (st : NodeState) (pm : List ColumnData) :
    (lidar_handler lut frame now st pm).2.1 = (lidar_handler lut frame now2 st pm).2.1 := by
  cases hb : (batch st.batcher st.ls pm).1 with
  | false => simp [lidar_handler, hb]
  | true =>
    cases hf : (batch st.batcher st.ls pm).2.2.cols.find? (fun c => c.timestamp != 0) with
    | none => simp [lidar_handler, hb, hf]
    | some c0 => simp [lidar_handler, hb, hf]

theorem runBatches_singleton (b : ScanBatcher) (ls : LidarScan) (q : List ColumnData) :
    (runBatches b ls [q]).1 = [(batch b ls q).1] := by
  simp [runBatches]

/-! ## Claim theorems -/

/-- C1: for every completed scan buffer in which every column's recorded
timestamp is zero, the lidar handler publishes no point cloud, leaves the
cloud buffer untouched (no conversion) and reports no clock-skew error;
being a total function it simply takes the empty branch and processing
continues. -/
theorem c1_all_zero_scan_not_published (lut : XYZLut) (frame : String) (now : Nat)
    (st : NodeState) (pm : List ColumnData)
    (hdone : (batch st.batcher st.ls pm).1 = true)
    (hzero : ∀ c ∈ (batch st.batcher st.ls pm).2.2.cols, c.timestamp = 0) :
    (lidar_handler lut frame now st pm).2.1 = none ∧
    (lidar_handler lut frame now st pm).1.cloud = st.cloud ∧
    (lidar_handler lut frame now st pm).2.2 = false := by
  have hfind : (batch st.batcher st.ls pm).2.2.cols.find? (fun c => c.timestamp != 0)
      = none := by
    rw [List.find?_eq_none]
    intro x hx
    simp [hzero x hx]
  refine ⟨?_, ?_, ?_⟩ <;> simp [lidar_handler, hdone, hfind]

/-- Witness for C1: a wrapping column (timestamp 777) completes a width-1
scan whose only column was never populated (timestamp zero); the completed
scan is all-zero, so nothing is published even though the next
revolution's column has a nonzero timestamp. -/
theorem c1_witness :
    (batch stZero.batcher stZero.ls [colT]).1 = true ∧
    (∀ c ∈ (batch stZero.batcher stZero.ls [colT]).2.2.cols, c.timestamp = 0) ∧
    (lidar_handler lutEx "os_sensor" 0 stZero [colT]).2.1 = none :=
  ⟨by decide, by decide,
   (c1_all_zero_scan_not_published lutEx "os_sensor" 0 stZero [colT]
     (by decide) (by decide)).1⟩

/-- C2: for every completed scan buffer having a first column (in column
order) with nonzero recorded timestamp, the published cloud's stamp equals
that column's timestamp. -/
theorem c2_cloud_stamp_is_first_nonzero_column (lut : XYZLut) (frame : String)
    (now : Nat) (st : NodeState) (pm : List ColumnData)
    (hdone : (batch st.batcher st.ls pm).1 = true)
    (i : Nat) (hi : i < (batch st.batcher st.ls pm).2.2.cols.length)
    (hnz : ((batch st.batcher st.ls pm).2.2.cols.get ⟨i, hi⟩).timestamp ≠ 0)
    (hmin : ∀ j (hj : j < i),
      ((batch st.batcher st.ls pm).2.2.cols.get ⟨j, Nat.lt_trans hj hi⟩).timestamp = 0) :
    ∃ msg, (lidar_handler lut frame now st pm).2.1 = some msg ∧
      msg.stamp = ((batch st.batcher st.ls pm).2.2.cols.get ⟨i, hi⟩).timestamp := by
  have hfind := find?_first (fun c => c.timestamp != 0)
    (batch st.batcher st.ls pm).2.2.cols i hi (by simpa using hnz)
    (fun j hj => by simpa using hmin j hj)
  refine ⟨cloud_to_cloud_msg
      (scan_to_cloud lut ((batch st.batcher st.ls pm).2.2.cols.get ⟨i, hi⟩).timestamp
        (batch st.batcher st.ls pm).2.2 st.cloud)
      ((batch st.batcher st.ls pm).2.2.cols.get ⟨i, hi⟩).timestamp frame, ?_, rfl⟩
  simp [lidar_handler, hdone, hfind]

/-- Witness for C2: the completed width-1 scan's first (and only) column
has timestamp 5, and the published cloud is stamped 5 — not with the
wrapping column's timestamp 777, which belongs to the next revolution. -/
theorem c2_witness :
    (batch stEx.batcher stEx.ls [colT]).1 = true ∧
    (∃ msg, (lidar_handler lutEx "os_sensor" 0 stEx [colT]).2.1 = some msg ∧
      msg.stamp = 5) := by
  refine ⟨by decide, ?_⟩
  have h := c2_cloud_stamp_is_first_nonzero_column lutEx "os_sensor" 0 stEx [colT]
    (by decide) 0 (by decide) (by decide) (fun j hj => absurd hj (Nat.not_lt_zero j))
  obtain ⟨msg, h1, h2⟩ := h
  exact ⟨msg, h1, by rw [h2]; decide⟩

/-- C3: feeding packets holding exactly one full revolution of `w`
in-range columns with strictly increasing measurement ids, followed by a
packet whose first column's id wraps (is at most the previous id), makes
the batch operation return `true` exactly once, on the wrapping call, and
`false` on every other call. -/
theorem c3_batch_true_exactly_once_on_wrap
    (w : Nat) (ps : List (List ColumnData)) (qc : ColumnData)
    (qrest : List ColumnData) (ls0 : LidarScan)
    (hw : ∀ c ∈ ps.flatten, c.m_id < w)
    (hchain : List.Chain' (fun x y : ColumnData => x.m_id < y.m_id) ps.flatten)
    (hlen : ps.flatten.length = w)
    (hpos : 0 < w)
    (hqw : qc.m_id < w)
    (hwrap : ∀ x ∈ ps.flatten.getLast?, qc.m_id ≤ x.m_id) :
    (runBatches ⟨w, none, []⟩ ls0 (ps ++ [qc :: qrest])).1 =
      List.replicate ps.length false ++ [true] := by
  have hok : okStart none ps.flatten := by
    intro l hl
    simp [Option.mem_def] at hl
  have hrun := runBatches_inc_false ps w none ls0 hw hchain hok
  obtain ⟨x, hx⟩ : ∃ x, ps.flatten.getLast? = some x := by
    rcases h : ps.flatten.getLast? with _ | x
    · have hnil : ps.flatten = [] := by simpa using h
      rw [hnil] at hlen
      simp at hlen
      exact absurd hlen.symm (Nat.pos_iff_ne_zero.mp hpos)
    · exact ⟨x, rfl⟩
  have hlast : nextLast none ps.flatten = some x.m_id := by simp [nextLast, hx]
  rw [runBatches_append, hrun.1, hrun.2, hlast, runBatches_singleton,
    batch_wrap_true w x.m_id _ qc qrest hqw (hwrap x (by rw [Option.mem_def, hx]))]

/-- Witness for C3: a 4-column revolution delivered as two 2-column
packets, then the wrapping packet; the three calls return
`false, false, true`. -/
theorem c3_witness :
    (runBatches ⟨4, none, []⟩ (freshScan 4) ([[colA, colB], [colC, colD]] ++ [[colWrap]])).1 =
      [false, false, true] := by
  have h := c3_batch_true_exactly_once_on_wrap 4 [[colA, colB], [colC, colD]]
    colWrap [] (freshScan 4) (by decide)
    (by simp [colA, colB, colC, colD]) (by decide) (by decide)
    (by decide) (fun x _ => Nat.zero_le x.m_id)
  rw [h]
  decide

/-- C4: whenever a completed scan has some column with a nonzero recorded
timestamp, the handler publishes a cloud; nothing about full population of
all columns is required. -/
theorem c4_any_nonzero_timestamp_published (lut : XYZLut) (frame : String)
    (now : Nat) (st : NodeState) (pm : List ColumnData)
    (hdone : (batch st.batcher st.ls pm).1 = true)
    (hex : ∃ c ∈ (batch st.batcher st.ls pm).2.2.cols, c.timestamp ≠ 0) :
    ((lidar_handler lut frame now st pm).2.1).isSome = true := by
  have hsome : ((batch st.batcher st.ls pm).2.2.cols.find?
      (fun c => c.timestamp != 0)).isSome = true := by
    rw [List.find?_isSome]
    obtain ⟨c, hc, hne⟩ := hex
    exact ⟨c, hc, by simpa using hne⟩
  rcases hf : (batch st.batcher st.ls pm).2.2.cols.find? (fun c => c.timestamp != 0)
    with _ | c0
  · rw [hf] at hsome
    simp at hsome
  · simp [lidar_handler, hdone, hf]

/-- Witness for C4: the completed width-1 scan has one populated column
(timestamp 5) and the handler publishes, even though the wrapping column
of the next revolution carries timestamp zero. -/
theorem c4_witness :
    (batch stEx.batcher stEx.ls [colZ]).1 = true ∧
    (∃ c ∈ (batch stEx.batcher stEx.ls [colZ]).2.2.cols, c.timestamp ≠ 0) ∧
    ((lidar_handler lutEx "os_sensor" 0 stEx [colZ]).2.1).isSome = true :=
  ⟨by decide, by decide,
   c4_any_nonzero_timestamp_published lutEx "os_sensor" 0 stEx [colZ]
     (by decide) (by decide)⟩

/-- C5: an IMU packet whose byte length differs from the expected IMU
packet size yields no published reading, its presence leaves the readings
of subsequent packets unchanged (the handler is stateless), and every
packet of the expected length is decoded and published. -/
theorem c5_imu_wrong_length_rejected (pf : PacketFormat) (frame : String)
    (bad : List Nat) (ps : List (List Nat))
    (hbad : bad.length ≠ pf.imu_packet_size) :
    imu_handler pf frame bad = none ∧
    imu_stream pf frame (bad :: ps) = none :: imu_stream pf frame ps ∧
    (∀ p : List Nat, p.length = pf.imu_packet_size →
      (imu_handler pf frame p).isSome = true) := by
  refine ⟨?_, ?_, ?_⟩
  · simp [imu_handler, packet_to_imu_msg, hbad]
  · simp [imu_stream, imu_handler, packet_to_imu_msg, hbad]
  · intro p hp
    simp [imu_handler, packet_to_imu_msg, hp]

/-- Witness for C5: a 3-byte packet is rejected ahead of a valid 48-byte
packet, which is still decoded and published. -/
theorem c5_witness :
    ([1, 2, 3] : List Nat).length ≠ (⟨48⟩ : PacketFormat).imu_packet_size ∧
    imu_stream ⟨48⟩ "os_imu" [[1, 2, 3], List.replicate 48 7] =
      [none, imu_handler ⟨48⟩ "os_imu" (List.replicate 48 7)] ∧
    (imu_handler ⟨48⟩ "os_imu" (List.replicate 48 7)).isSome = true := by
  have h := c5_imu_wrong_length_rejected ⟨48⟩ "os_imu" [1, 2, 3]
    [List.replicate 48 7] (by decide)
  refine ⟨by decide, ?_, h.2.2 (List.replicate 48 7) (by decide)⟩
  rw [h.2.1]
  simp [imu_stream]

/-- C6: the message the lidar handler publishes is independent of the host
wall time (clock skew never suppresses emission), and whenever a message
is published the clock-skew report flag is exactly the outcome of
`check_valid_timestamp` on the published stamp, so a far-in-the-past stamp
is reported and still published. -/
theorem c6_clock_skew_never_suppresses (lut : XYZLut) (frame : String)
    (now now2 : Nat) (st : NodeState) (pm : List ColumnData) :
    (lidar_handler lut frame now st pm).2.1 = (lidar_handler lut frame now2 st pm).2.1 ∧
    (∀ msg, (lidar_handler lut frame now st pm).2.1 = some msg →
      (lidar_handler lut frame now st pm).2.2 = check_valid_timestamp msg.stamp now) := by
  refine ⟨lidar_handler_pub_indep lut frame now now2 st pm, ?_⟩
  intro msg hmsg
  cases hb : (batch st.batcher st.ls pm).1 with
  | false => simp [lidar_handler, hb] at hmsg
  | true =>
    cases hf : (batch st.batcher st.ls pm).2.2.cols.find? (fun c => c.timestamp != 0) with
    | none => simp [lidar_handler, hb, hf] at hmsg
    | some c0 =>
      simp [lidar_handler, hb, hf] at hmsg
      subst hmsg
      simp [lidar_handler, hb, hf, cloud_to_cloud_msg]

/-- Witness for C6: with host time 6000000000 ns a cloud stamped 5 ns is
more than 5 s behind; the skew error is reported and the cloud is still
published, identical to what a synchronized host would publish. -/
theorem c6_witness :
    (lidar_handler lutEx "os_sensor" 6000000000 stEx [colT]).2.1 =
      (lidar_handler lutEx "os_sensor" 0 stEx [colT]).2.1 ∧
    (lidar_handler lutEx "os_sensor" 6000000000 stEx [colT]).2.2 = true ∧
    ((lidar_handler lutEx "os_sensor" 6000000000 stEx [colT]).2.1).isSome = true := by
  refine ⟨(c6_clock_skew_never_suppresses lutEx "os_sensor" 6000000000 0 stEx [colT]).1,
    ?_, by decide⟩
  have h := (c6_clock_skew_never_suppresses lutEx "os_sensor" 6000000000 6000000000
    stEx [colT]).2 ⟨5, "os_sensor", ⟨[]⟩⟩ (by decide)
  rw [h]
  decide

/-- C7: `check_valid_timestamp` reports exactly when the message stamp is
more than 5 seconds (5000000000 ns) earlier than host time; a stamp at or
beyond host time (arbitrarily far in the future) is never reported; and
the check influences neither the published message nor the decision to
publish. -/
theorem c7_check_valid_timestamp_spec (t now : Nat) :
    (check_valid_timestamp t now = true ↔ (now : Int) - (t : Int) > kMaxTimeOffset) ∧
    (now ≤ t → check_valid_timestamp t now = false) ∧
    (∀ (lut : XYZLut) (frame : String) (st : NodeState) (pm : List ColumnData)
      (now2 : Nat),
      (lidar_handler lut frame now st pm).2.1 = (lidar_handler lut frame now2 st pm).2.1) := by
  refine ⟨?_, ?_, fun lut frame st pm now2 => lidar_handler_pub_indep lut frame now now2 st pm⟩
  · simp only [check_valid_timestamp, kMaxTimeOffset, decide_eq_true_eq]
    omega
  · intro h
    simp only [check_valid_timestamp, kMaxTimeOffset, decide_eq_false_iff_not]
    omega

/-- Witness for C7: a stamp 10 s behind is reported, a stamp ahead of host
time is not, and the published message is unchanged by host time. -/
theorem c7_witness :
    check_valid_timestamp 0 10000000000 = true ∧
    check_valid_timestamp 10 3 = false ∧
    (lidar_handler lutEx "os_sensor" 0 stEx [colT]).2.1 =
      (lidar_handler lutEx "os_sensor" 123 stEx [colT]).2.1 := by
  refine ⟨?_, ?_, ?_⟩
  · exact (c7_check_valid_timestamp_spec 0 10000000000).1.mpr (by decide)
  · exact (c7_check_valid_timestamp_spec 10 3).2.1 (by decide)
  · exact (c7_check_valid_timestamp_spec 0 0).2.2 lutEx "os_sensor" stEx [colT] 123

/-- C8: when the one-time config-service call fails the program reports
the failure and exits with `EXIT_FAILURE`, its whole action trace being
that single report (no topic, no subscription, no transform, so no packet
processing ever begins); with metadata obtained, the run exits with
`EXIT_SUCCESS` — metadata failure is the only hard failure. -/
theorem c8_metadata_failure_fatal (tfp : String) :
    (os_cloud_node_main tfp none).1 = [Event.reportError "Calling config service failed"] ∧
    (os_cloud_node_main tfp none).2 = EXIT_FAILURE ∧
    (∀ info : SensorInfo, (os_cloud_node_main tfp (some info)).2 = EXIT_SUCCESS) :=
  ⟨rfl, rfl, fun _ => rfl⟩

/-- C9: after metadata is obtained, the transform broadcasts of the whole
run are exactly one message carrying the imu-to-sensor transform and one
carrying the lidar-to-sensor transform, in this order, each with its
transform content unmodified. -/
theorem c9_transforms_forwarded_once_unmodified (tfp : String) (info : SensorInfo) :
    ((os_cloud_node_main tfp (some info)).1.filter Event.isSend) =
      [Event.sendTransform ⟨info.imu_to_sensor_transform,
          normalizePre tfp ++ "os_sensor", normalizePre tfp ++ "os_imu"⟩,
       Event.sendTransform ⟨info.lidar_to_sensor_transform,
          normalizePre tfp ++ "os_sensor", normalizePre tfp ++ "os_lidar"⟩] := by
  simp [os_cloud_node_main, transform_to_tf_msg, Event.isSend, List.filter]

/-- C10: the scan-to-cloud conversion writes every cell of the output
buffer from the lookup table and the scan alone, so converting the same
completed scan twice yields a bit-identical cloud, and the result is
independent of the previous contents of the output buffer. -/
theorem c10_scan_to_cloud_idempotent (lut : XYZLut) (scan_ts : Nat)
    (ls : LidarScan) (cloud : CloudBuf) :
    scan_to_cloud lut scan_ts ls (scan_to_cloud lut scan_ts ls cloud) =
      scan_to_cloud lut scan_ts ls cloud ∧
    (∀ cloud2 : CloudBuf,
      scan_to_cloud lut scan_ts ls cloud = scan_to_cloud lut scan_ts ls cloud2) :=
  ⟨rfl, fun _ => rfl⟩

end OusterRos
